import Mathlib

/-!
Shallow embedding of the result-cpp library (namespace `res` of result.h):
the failure marker `err<E>`, the success marker `ok<T>`, the outcome
container `result<T, E>` and its void specialization `result<void, E>`,
together with the `divide` example of the README.

Modelling conventions:
* C++ class templates become Lean structures; the two payload slots of
  `result<T, E>` are both physically present, exactly as in the source.
* The private default constructor `result() = default` default-initializes
  the payload slots; this is modelled by `Inhabited` instances and `default`
  values, mirroring the requirement that the slot types be
  default-constructible.
* The accessors `value()` and `error()` throw `std::logic_error` on
  discriminant mismatch; they are embedded as functions into
  `Except String`, whose error channel carries the `std::logic_error`
  message and is disjoint from the user error type E.
* All other public operations are total C++ functions and are embedded as
  plain total Lean functions.
-/

namespace res

/-- Embeds `err<E>` (result.h lines 28-37): failure marker holding a
mandatory error of type E; default construction is deleted, so the only
constructor takes the error value. -/
structure err (E : Type) where
  error_ : E

/-- Embeds `ok<T>` (result.h lines 63-72): success marker holding a value
of type T; `T` defaults to `std::monostate` in the source, which is the
unit type here. -/
structure ok (T : Type) where
  value_ : T

/-- Embeds the data members of `result<T, E>` (result.h lines 100-102):
a boolean discriminant `successful_` plus BOTH payload slots `value_ : T`
and `error_ : E`, physically present at all times. -/
structure result (T E : Type) where
  successful_ : Bool
  value_ : T
  error_ : E

/-- Embeds the data members of the void specialization `result<void, E>`
(result.h lines 142-143): the discriminant and the error slot only. -/
structure resultVoid (E : Type) where
  successful_ : Bool
  error_ : E

/-- Embeds the private default constructor `result() = default`
(result.h line 104): `successful_` has the member initializer `false`,
the two payload slots are default-constructed, which requires T and E to
be default-constructible. -/
def result.mkDefault (T E : Type) [Inhabited T] [Inhabited E] : result T E :=
  { successful_ := false, value_ := default, error_ := default }

/-- Embeds the private default constructor of `result<void, E>`
(result.h line 145). -/
def resultVoid.mkDefault (E : Type) [Inhabited E] : resultVoid E :=
  { successful_ := false, error_ := default }

/-- Embeds `result<T, E>::make_successful` (result.h lines 106-109). -/
def result.make_successful {T E : Type} (r : result T E) (v : T) : result T E :=
  { r with successful_ := true, value_ := v }

/-- Embeds `result<T, E>::make_unsuccessful` (result.h lines 110-113). -/
def result.make_unsuccessful {T E : Type} (r : result T E) (e : E) : result T E :=
  { r with successful_ := false, error_ := e }

/-- Embeds `result<void, E>::make_successful` (result.h line 147). -/
def resultVoid.make_successful {E : Type} (r : resultVoid E) : resultVoid E :=
  { r with successful_ := true }

/-- Embeds `result<void, E>::make_unsuccessful` (result.h lines 148-151). -/
def resultVoid.make_unsuccessful {E : Type} (r : resultVoid E) (e : E) : resultVoid E :=
  { r with successful_ := false, error_ := e }

/-- Embeds `err<E>::operator result<T, E>` (result.h lines 39-43):
default-construct a `result<T, E>` and call `make_unsuccessful` with the
held error. -/
def err.toResult {T E : Type} [Inhabited T] [Inhabited E] (x : err E) : result T E :=
  (result.mkDefault T E).make_unsuccessful x.error_

/-- Embeds `err<E>::operator result<void, E>` (result.h lines 45-49). -/
def err.toResultVoid {E : Type} [Inhabited E] (x : err E) : resultVoid E :=
  (resultVoid.mkDefault E).make_unsuccessful x.error_

/-- Embeds `ok<T>::operator result<T, E>` (result.h lines 74-78):
default-construct a `result<T, E>` and call `make_successful` with the
held value. -/
def ok.toResult {T E : Type} [Inhabited T] [Inhabited E] (x : ok T) : result T E :=
  (result.mkDefault T E).make_successful x.value_

/-- Embeds `ok<T>::operator result<void, E>` (result.h lines 80-84,
also src/ok/ok.hpp lines 30-34): default-construct a `result<void, E>` and
call the zero-argument `make_successful`, discarding the held value. -/
def ok.toResultVoid {T E : Type} [Inhabited E] (x : ok T) : resultVoid E :=
  (resultVoid.mkDefault E).make_successful

/-- Embeds `result<T, E>::is_ok` (result.h line 120). -/
def result.is_ok {T E : Type} (r : result T E) : Bool :=
  r.successful_

/-- Embeds `result<T, E>::operator bool` (result.h line 121). -/
def result.toBool {T E : Type} (r : result T E) : Bool :=
  r.is_ok

/-- Embeds `result<T, E>::operator!` (result.h line 122). -/
def result.negate {T E : Type} (r : result T E) : Bool :=
  !r.is_ok

/-- Embeds `result<void, E>::is_ok` (result.h line 158). -/
def resultVoid.is_ok {E : Type} (r : resultVoid E) : Bool :=
  r.successful_

/-- Embeds `result<void, E>::operator bool` (result.h line 159). -/
def resultVoid.toBool {E : Type} (r : resultVoid E) : Bool :=
  r.is_ok

/-- Embeds `result<void, E>::operator!` (result.h line 160). -/
def resultVoid.negate {E : Type} (r : resultVoid E) : Bool :=
  !r.is_ok

/-- Embeds `result<T, E>::value` (result.h lines 174-177): throws
`std::logic_error("value() called on result with error")` when the
outcome is not successful, otherwise returns the success payload. The
throw is modelled as the `Except.error` channel carrying the message. -/
def result.value {T E : Type} (r : result T E) : Except String T :=
  if r.is_ok then Except.ok r.value_
  else Except.error "value() called on result with error"

/-- Embeds `result<T, E>::value_or` (result.h lines 179-182): total,
returns the success payload on success and the supplied default on
failure. -/
def result.value_or {T E : Type} (r : result T E) (default_value : T) : T :=
  if r.is_ok then r.value_ else default_value

/-- Embeds `result<T, E>::error` (result.h lines 184-187): throws
`std::logic_error("error() called on result with value")` when the
outcome is successful, otherwise returns the error payload. -/
def result.error {T E : Type} (r : result T E) : Except String E :=
  if r.is_ok then Except.error "error() called on result with value"
  else Except.ok r.error_

/-- Embeds `result<void, E>::error` (result.h lines 189-192): same
contract as the general form. -/
def resultVoid.error {E : Type} (r : resultVoid E) : Except String E :=
  if r.is_ok then Except.error "error() called on result with value"
  else Except.ok r.error_

/-- Embeds `result<T, E>::map` (result.h lines 132-135): on success,
wrap `functor value_` through `ok<U>` and convert; on failure, wrap the
held error through `err<E>` and convert. Both conversion paths
default-construct a `result<U, E>`, hence the `Inhabited` requirements
on U and E. -/
def result.map {T E U : Type} [Inhabited U] [Inhabited E]
    (r : result T E) (functor : T → U) : result U E :=
  if r.is_ok then (ok.mk (functor r.value_)).toResult
  else (err.mk r.error_).toResult

/-- Embeds `result<void, E>::map` (result.h lines 168-171): the functor
is invoked with no input (unit argument here) on success; failure
propagates the error exactly as in the general form. -/
def resultVoid.map {E U : Type} [Inhabited U] [Inhabited E]
    (r : resultVoid E) (functor : Unit → U) : result U E :=
  if r.is_ok then (ok.mk (functor ())).toResult
  else (err.mk r.error_).toResult

/-- Codes for C++ template arguments, with `tvoid` the designated
empty/absent value type `void`; the other codes stand for arbitrary
ordinary object types. -/
inductive CppTy where
  | tvoid
  | tint
  | tbool
  | tstring
  | tmonostate
deriving DecidableEq

/-- Embeds `std::is_same_v<X, void>` on the type codes. -/
def CppTy.is_void : CppTy → Bool
  | .tvoid => true
  | _ => false

/-- Embeds the two static asserts guarding the general form
`result<T, E>` (result.h lines 97-98): `!std::is_same_v<T, void>` and
`!std::is_same_v<E, void>` must both hold for the instantiation to
compile. -/
def result.instantiable (t e : CppTy) : Bool :=
  !t.is_void && !e.is_void

/-- Embeds the static assert guarding the void specialization
`result<void, E>` (result.h line 140): only `!std::is_same_v<E, void>`
is required, the value type being void by definition of the
specialization. -/
def resultVoid.instantiable (e : CppTy) : Bool :=
  !e.is_void

/-- Embeds the `divide` example of README.md lines 18-24: returns an
error outcome "Division by zero" when b is zero, otherwise a success
outcome holding the quotient. C++ integer division truncates toward
zero, which is `Int.div`. -/
def divide (a b : Int) : result Int String :=
  if b = 0 then (err.mk "Division by zero").toResult
  else (ok.mk (Int.tdiv a b)).toResult

/-- C1: converting a Success marker `ok v` into `result<T, E>` yields an
outcome whose discriminant is success (`is_ok` returns true) and whose
`value` accessor returns v, for every value v and all types T, E. -/
theorem C1_ok_conversion_success {T E : Type} [Inhabited T] [Inhabited E] (v : T) :
    ((ok.mk v).toResult : result T E).is_ok = true ∧
    ((ok.mk v).toResult : result T E).value = Except.ok v := by
  constructor <;> rfl

/-- C2: converting a Failure marker `err e` into `result<T, E>` yields
an outcome whose discriminant is failure (`is_ok` returns false) and
whose `error` accessor returns e; the same holds for conversion into the
void specialization `result<void, E>`. -/
theorem C2_err_conversion_failure {T E : Type} [Inhabited T] [Inhabited E] (e : E) :
    ((err.mk e).toResult : result T E).is_ok = false ∧
    ((err.mk e).toResult : result T E).error = Except.ok e ∧
    ((err.mk e).toResultVoid : resultVoid E).is_ok = false ∧
    ((err.mk e).toResultVoid : resultVoid E).error = Except.ok e := by
  refine ⟨rfl, rfl, rfl, rfl⟩

/-- C3: on both forms of the outcome, calling `value` on a failure
outcome or `error` on a success outcome fails with the logic-violation
message of `std::logic_error`, carried on a channel (here `String`)
disjoint from the user error type E; the remaining public operations
(`is_ok`, `toBool`, `negate`, `value_or`, `map`, the matching accessor)
are plain total functions by their very types in this embedding. -/
theorem C3_accessor_contract_violation {T E : Type} (r : result T E) (rv : resultVoid E) :
    (r.is_ok = false → r.value = Except.error "value() called on result with error") ∧
    (r.is_ok = true → r.error = Except.error "error() called on result with value") ∧
    (rv.is_ok = true → rv.error = Except.error "error() called on result with value") := by
  refine ⟨fun h => ?_, fun h => ?_, fun h => ?_⟩ <;>
    simp [result.value, result.error, resultVoid.error, h]

/-- C3 witness: the contract-violation branches at concrete outcomes. -/
theorem C3_accessor_contract_violation_witness :
    ((res.err.mk "boom").toResult : res.result Int String).value =
      Except.error "value() called on result with error" ∧
    ((res.ok.mk (3 : Int)).toResult : res.result Int String).error =
      Except.error "error() called on result with value" ∧
    ((res.ok.mk (3 : Int)).toResultVoid : res.resultVoid String).error =
      Except.error "error() called on result with value" :=
  ⟨(C3_accessor_contract_violation ((err.mk "boom").toResult : result Int String)
      ((err.mk "boom").toResultVoid : resultVoid String)).1 rfl,
   (C3_accessor_contract_violation ((ok.mk (3 : Int)).toResult : result Int String)
      ((ok.mk (3 : Int)).toResultVoid : resultVoid String)).2.1 rfl,
   (C3_accessor_contract_violation ((ok.mk (3 : Int)).toResult : result Int String)
      ((ok.mk (3 : Int)).toResultVoid : resultVoid String)).2.2 rfl⟩

/-- C4: `map f` on a success outcome holding v returns a success outcome
of the new value type holding `f v`; in the void specialization the
functor is invoked as a zero-argument producer and its output is wrapped
the same way. -/
theorem C4_map_on_success {T E U : Type} [Inhabited E] [Inhabited U]
    (r : result T E) (f : T → U) (rv : resultVoid E) (g : Unit → U) :
    (r.is_ok = true →
      (r.map f).is_ok = true ∧ (r.map f).value = Except.ok (f r.value_)) ∧
    (rv.is_ok = true →
      (rv.map g).is_ok = true ∧ (rv.map g).value = Except.ok (g ())) := by
  refine ⟨fun h => ?_, fun h => ?_⟩ <;>
    simp only [result.is_ok, resultVoid.is_ok] at h <;>
    simp [result.map, resultVoid.map, ok.toResult, result.mkDefault,
      result.make_successful, result.is_ok, resultVoid.is_ok, result.value, h]

/-- C4 witness: mapping a doubling function over concrete successes. -/
theorem C4_map_on_success_witness :
    ((((res.ok.mk (4 : Int)).toResult : res.result Int String).map (fun x => x + x)).is_ok = true ∧
      (((res.ok.mk (4 : Int)).toResult : res.result Int String).map
        (fun x => x + x)).value = Except.ok (8 : Int)) ∧
    ((((res.ok.mk (4 : Int)).toResultVoid : res.resultVoid String).map (fun _ => (7 : Int))).is_ok = true ∧
      (((res.ok.mk (4 : Int)).toResultVoid : res.resultVoid String).map
        (fun _ => (7 : Int))).value = Except.ok (7 : Int)) :=
  ⟨(C4_map_on_success ((ok.mk (4 : Int)).toResult : result Int String) (fun x => x + x)
      ((ok.mk (4 : Int)).toResultVoid : resultVoid String) (fun _ => (7 : Int))).1 rfl,
   (C4_map_on_success ((ok.mk (4 : Int)).toResult : result Int String) (fun x => x + x)
      ((ok.mk (4 : Int)).toResultVoid : resultVoid String) (fun _ => (7 : Int))).2 rfl⟩

/-- C5: `map` on a failure outcome returns a failure outcome of the new
value type holding the same error, and the functor is never consulted:
the returned outcome is literally the same for every pair of functors.
This short-circuit is identical on the general form and the void
specialization. -/
theorem C5_map_on_failure_short_circuits {T E U : Type} [Inhabited E] [Inhabited U]
    (r : result T E) (rv : resultVoid E) :
    (r.is_ok = false → ∀ f g : T → U,
      (r.map f).is_ok = false ∧ (r.map f).error = Except.ok r.error_ ∧
      r.map f = r.map g) ∧
    (rv.is_ok = false → ∀ f g : Unit → U,
      (rv.map f).is_ok = false ∧ (rv.map f).error = Except.ok rv.error_ ∧
      rv.map f = rv.map g) := by
  refine ⟨fun h f g => ?_, fun h f g => ?_⟩ <;>
    simp only [result.is_ok, resultVoid.is_ok] at h <;>
    simp [result.map, resultVoid.map, err.toResult, result.mkDefault,
      result.make_unsuccessful, result.is_ok, resultVoid.is_ok, result.error, h]

/-- C5 witness: mapping two different functors over concrete failures
gives the same failure outcome with the original error. -/
theorem C5_map_on_failure_short_circuits_witness :
    ((((res.err.mk "bad").toResult : res.result Int String).map (fun x => x + 1)).is_ok = false ∧
      (((res.err.mk "bad").toResult : res.result Int String).map
        (fun x => x + 1)).error = Except.ok "bad" ∧
      ((res.err.mk "bad").toResult : res.result Int String).map (fun x => x + 1) =
        ((res.err.mk "bad").toResult : res.result Int String).map (fun x => x * 100)) ∧
    ((((res.err.mk "bad").toResultVoid : res.resultVoid String).map (fun _ => (1 : Int))).is_ok = false ∧
      (((res.err.mk "bad").toResultVoid : res.resultVoid String).map
        (fun _ => (1 : Int))).error = Except.ok "bad" ∧
      ((res.err.mk "bad").toResultVoid : res.resultVoid String).map (fun _ => (1 : Int)) =
        ((res.err.mk "bad").toResultVoid : res.resultVoid String).map (fun _ => (2 : Int))) :=
  ⟨(C5_map_on_failure_short_circuits ((err.mk "bad").toResult : result Int String)
      ((err.mk "bad").toResultVoid : resultVoid String)).1 rfl
      (fun x => x + 1) (fun x => x * 100),
   (C5_map_on_failure_short_circuits ((err.mk "bad").toResult : result Int String)
      ((err.mk "bad").toResultVoid : resultVoid String)).2 rfl
      (fun _ => (1 : Int)) (fun _ => (2 : Int))⟩

/-- C6: `value_or d` returns the held success payload on a success
outcome and the supplied default d on a failure outcome; it is a plain
total function and cannot fail. -/
theorem C6_value_or_total {T E : Type} (r : result T E) (d : T) :
    (r.is_ok = true → r.value_or d = r.value_) ∧
    (r.is_ok = false → r.value_or d = d) := by
  refine ⟨fun h => ?_, fun h => ?_⟩ <;> simp [result.value_or, h]

/-- C6 witness: both branches of `value_or` at concrete outcomes. -/
theorem C6_value_or_total_witness :
    ((res.ok.mk (9 : Int)).toResult : res.result Int String).value_or 0 = 9 ∧
    ((res.err.mk "oops").toResult : res.result Int String).value_or 0 = 0 :=
  ⟨(C6_value_or_total ((ok.mk (9 : Int)).toResult : result Int String) 0).1 rfl,
   (C6_value_or_total ((err.mk "oops").toResult : result Int String) 0).2 rfl⟩

/-- C7: the divide example of the README: `divide 10 2` is a success
outcome whose value is 5, and `divide 10 0` is a failure outcome whose
error is "Division by zero". -/
theorem C7_divide_example :
    (divide 10 2).is_ok = true ∧ (divide 10 2).value = Except.ok 5 ∧
    (divide 10 0).is_ok = false ∧
    (divide 10 0).error = Except.ok "Division by zero" := by
  refine ⟨rfl, rfl, rfl, rfl⟩

/-- C8: the general form `result<T, E>` is instantiable exactly when
neither template argument is the empty/absent value type `void`; the
void specialization exists for the value-less case and only constrains
E. -/
theorem C8_no_void_parameters (t e : CppTy) :
    (result.instantiable t e = true ↔ t ≠ CppTy.tvoid ∧ e ≠ CppTy.tvoid) ∧
    (resultVoid.instantiable e = true ↔ e ≠ CppTy.tvoid) := by
  cases t <;> cases e <;> simp [result.instantiable, resultVoid.instantiable, CppTy.is_void]

/-- C9: every general-form outcome physically contains both payload
slots: a failure outcome built through the `err` conversion still holds
the default-constructed success slot, and a success outcome built
through the `ok` conversion still holds the default-constructed error
slot (construction thus requires `Inhabited`, the embedding of
default-constructibility, for both T and E). -/
theorem C9_both_slots_present {T E : Type} [Inhabited T] [Inhabited E] (v : T) (e : E) :
    ((err.mk e).toResult : result T E).value_ = (default : T) ∧
    ((ok.mk v).toResult : result T E).error_ = (default : E) := by
  constructor <;> rfl

/-- C10: a Success marker holding any value converts to the void outcome
`result<void, E>`, yielding a success outcome and silently discarding
the held value: the produced outcome does not depend on the value at
all, e.g. `ok 5` converts with `is_ok` true. -/
theorem C10_ok_to_void_discards_value {T E : Type} [Inhabited E] (v w : T) :
    ((ok.mk v).toResultVoid : resultVoid E).is_ok = true ∧
    ((ok.mk v).toResultVoid : resultVoid E) = ((ok.mk w).toResultVoid : resultVoid E) ∧
    ((ok.mk (5 : Int)).toResultVoid : resultVoid E).is_ok = true := by
  refine ⟨rfl, rfl, rfl⟩

end res
